import Mathlib

/-!
Verification development for the `context-ai` demo repository.

The embedded code lives in `src/utils/demo_data.py` (scenario data
generator), `src/utils/kg_generator.py` (knowledge-graph builders and
journey-stage orchestration) and `src/utils/pyvis_utils.py` (the static
customer-concentration demo graph).  Python floats are modelled as `ℚ`,
Python dicts with heterogeneous values as association lists over `PyVal`,
and exceptions as `Except String`.  Node and edge identity in the graphs
embeds Python-formatted value strings, so the relevant pieces of Python's
string formatting (`{:,}`, `{:,.0f}`, `{:.1f}`, `{:.2f}`) are implemented
over `ℚ` with round-half-even, matching `format` on the values reached in
this development (all of which are far from rounding ties).
-/

namespace ContextAI

/-! ## Python-style number formatting -/

/-- Round half to even (the rounding used by Python's string formatting). -/
def rhe (q : ℚ) : ℤ :=
  let f := q.floor
  let r := q - (f : ℚ)
  if r < 1/2 then f
  else if 1/2 < r then f + 1
  else if f % 2 = 0 then f else f + 1

/-- Left-pad a string with zeros to length `d`. -/
def padZeros (s : String) (d : ℕ) : String :=
  String.mk (List.replicate (d - s.length) '0') ++ s

/-- Insert thousands separators into the decimal representation of a natural
number, as Python's `{:,}` format does. -/
def natComma (n : ℕ) : String :=
  let rev := (Nat.repr n).data.reverse
  let withCommas := (rev.enum.map
    (fun p => if p.1 ≠ 0 ∧ p.1 % 3 = 0 then [',', p.2] else [p.2])).flatten
  String.mk withCommas.reverse

/-- Python `format(n, ",")` for an integer. -/
def intComma (n : ℤ) : String :=
  (if n < 0 then "-" else "") ++ natComma n.natAbs

/-- Python `f"{q:.df}"`: fixed-point with `d` decimals, round half to even. -/
def pyFixed (d : ℕ) (q : ℚ) : String :=
  let m := rhe (q * (10 : ℚ) ^ d)
  let sign := if m < 0 then "-" else ""
  let a := m.natAbs
  if d = 0 then sign ++ Nat.repr a
  else sign ++ Nat.repr (a / 10 ^ d) ++ "." ++ padZeros (Nat.repr (a % 10 ^ d)) d

/-- Python `f"{q:,.0f}"`: round to an integer and group with commas. -/
def pyCommaF0 (q : ℚ) : String :=
  (if rhe q < 0 then "-" else "") ++ natComma (rhe q).natAbs

/-- Smallest number of decimals (up to 17) rendering `q` exactly, if any. -/
def decDigits (q : ℚ) : Option ℕ :=
  (List.range 18).find? (fun d => (q * (10 : ℚ) ^ d).den = 1)

/-- Rendering of a Python float by `str`.  For the finite-decimal values
appearing in this development this agrees with Python's `repr`-based
rendering; it is only ever consumed on branches that the generated data
never reaches. -/
def pyFloatStr (q : ℚ) : String :=
  match decDigits q with
  | some 0 => (if q < 0 then "-" else "") ++ Nat.repr q.num.natAbs ++ ".0"
  | some d => pyFixed d q
  | none => pyFixed 17 q

/-! ## Python values and dicts -/

/-- A Python value as stored in the demo-data dicts: strings, ints, floats
(as `ℚ`) and booleans. -/
inductive PyVal where
  | str (v : String)
  | int (v : ℤ)
  | num (v : ℚ)
  | bool (v : Bool)
deriving DecidableEq

/-- Python `str()` of a value, as used by f-string interpolation without a
format spec. -/
def pyToStr : PyVal → String
  | .str v => v
  | .int v => (if v < 0 then "-" else "") ++ Nat.repr v.natAbs
  | .num v => pyFloatStr v
  | .bool v => if v then "True" else "False"

/-- Python `==` between a value and a string literal. -/
def pyEqS (v : PyVal) (s : String) : Bool :=
  match v with
  | .str t => t == s
  | _ => false

/-- A Python dict with string keys, in insertion order. -/
abbrev PyDict := List (String × PyVal)

/-- Python `d.get(k, default)`. -/
def dget (m : PyDict) (k : String) (dflt : PyVal) : PyVal :=
  (m.lookup k).getD dflt

/-- Python `k in d`. -/
def dmem (m : PyDict) (k : String) : Bool :=
  (m.lookup k).isSome

/-- Python `d[k]`: a missing key raises `KeyError`, whose `str()` is the
quoted key. -/
def dgetE (m : PyDict) (k : String) : Except String PyVal :=
  match m.lookup k with
  | some v => .ok v
  | none => .error ("'" ++ k ++ "'")

/-- Numeric coercion demanded by a `f`-type format spec; a string raises. -/
def asRatE : PyVal → Except String ℚ
  | .int n => .ok (n : ℚ)
  | .num q => .ok q
  | .bool b => .ok (if b then 1 else 0)
  | .str _ => .error "Unknown format code 'f' for object of type 'str'"

/-- Python `f"{v:,.0f}"` on a dict value. -/
def fmtMoneyE (v : PyVal) : Except String String := do
  pure (pyCommaF0 (← asRatE v))

/-- Python `f"{v:.2f}"` on a dict value. -/
def fmtF2E (v : PyVal) : Except String String := do
  pure (pyFixed 2 (← asRatE v))

/-- Python `f"{v:.1f}"` on a dict value. -/
def fmtF1E (v : PyVal) : Except String String := do
  pure (pyFixed 1 (← asRatE v))

/-- Python `f"{v:.0f}"` on a dict value. -/
def fmtF0E (v : PyVal) : Except String String := do
  pure (pyFixed 0 (← asRatE v))

/-- Python `f"{v*100:.1f}"` on a dict value (percent rendering). -/
def fmtPct1E (v : PyVal) : Except String String := do
  pure (pyFixed 1 ((← asRatE v) * 100))

/-- Python `f"{v:,}"` on a dict value (`,` with a string raises). -/
def fmtCommaE (v : PyVal) : Except String String :=
  match v with
  | .int n => .ok (intComma n)
  | .num q => .ok (pyFloatStr q)
  | .bool b => .ok (if b then "1" else "0")
  | .str _ => .error "Cannot specify ',' with 's'."

/-! ## Attributed graphs (the `networkx.Graph` fragment the builders use) -/

/-- Node attributes passed by every `add_node` call in the source. -/
structure NodeAttrs where
  size : ℚ
  color : String
  title : String
deriving DecidableEq

/-- Edge attributes: every `add_edge` call passes `width`, some pass
`color`. -/
structure EdgeAttrs where
  width : ℚ
  color : Option String
deriving DecidableEq

/-- An undirected attributed graph.  `networkx` auto-adds attribute-less
nodes for unknown edge endpoints, hence `Option NodeAttrs`. -/
structure Graph where
  nodes : List (String × Option NodeAttrs)
  edges : List ((String × String) × EdgeAttrs)
deriving DecidableEq

def Graph.empty : Graph := ⟨[], []⟩

def hasNode (G : Graph) (n : String) : Bool :=
  G.nodes.any (fun p => p.1 == n)

/-- Ensure a node exists, without attributes (endpoint auto-add). -/
def addNodeRaw (G : Graph) (n : String) : Graph :=
  if hasNode G n then G else ⟨G.nodes ++ [(n, none)], G.edges⟩

/-- `G.add_node(n, size=..., color=..., title=...)`: insert or update. -/
def addNode (G : Graph) (n : String) (a : NodeAttrs) : Graph :=
  if hasNode G n then
    ⟨G.nodes.map (fun p => if p.1 == n then (n, some a) else p), G.edges⟩
  else ⟨G.nodes ++ [(n, some a)], G.edges⟩

def edgeMatches (u v : String) (e : (String × String) × EdgeAttrs) : Bool :=
  (e.1.1 == u && e.1.2 == v) || (e.1.1 == v && e.1.2 == u)

def hasEdge (G : Graph) (u v : String) : Bool :=
  G.edges.any (edgeMatches u v)

/-- `G.add_edge(u, v, width=..., [color=...])`: endpoints are auto-added;
an existing edge has its attributes merged (a new call always carries
`width`; an omitted `color` keeps the stored one). -/
def addEdge (G : Graph) (u v : String) (a : EdgeAttrs) : Graph :=
  let G := addNodeRaw (addNodeRaw G u) v
  if hasEdge G u v then
    ⟨G.nodes, G.edges.map (fun e =>
      if edgeMatches u v e then (e.1, ⟨a.width, a.color.orElse (fun _ => e.2.color)⟩) else e)⟩
  else ⟨G.nodes, G.edges ++ [((u, v), a)]⟩

def nodeTitle (G : Graph) (n : String) : Option String :=
  match G.nodes.lookup n with
  | some (some a) => some a.title
  | _ => none

def edgeWidth (G : Graph) (u v : String) : Option ℚ :=
  (G.edges.find? (edgeMatches u v)).map (fun e => e.2.width)

def nodeIds (G : Graph) : List String := G.nodes.map Prod.fst

/-- One `add_node` / `add_edge` statement of the source. -/
inductive GOp where
  | node (id : String) (a : NodeAttrs)
  | edge (u v : String) (a : EdgeAttrs)
deriving DecidableEq

def applyOp (G : Graph) : GOp → Graph
  | .node n a => addNode G n a
  | .edge u v a => addEdge G u v a

def applyOps (G : Graph) (ops : List GOp) : Graph := ops.foldl applyOp G

/-- Boolean subgraph test: every node id and every edge of `G` occurs in
`H`. -/
def subg (G H : Graph) : Bool :=
  (nodeIds G).all (hasNode H) && G.edges.all (fun e => hasEdge H e.1.1 e.1.2)

/-- Infix test on lists: the needle occurs contiguously in the haystack. -/
def listInfixOf [BEq α] : List α → List α → Bool
  | needle, [] => needle.isEmpty
  | needle, a :: rest => needle.isPrefixOf (a :: rest) || listInfixOf needle rest

/-- Python's `sub in s` substring test. -/
def strContains (s sub : String) : Bool :=
  listInfixOf sub.data s.data

/-! ## Colors: the static `COLORS` palette of `src/utils/theme.py` -/

def colorPrimary : String := "#3B82F6"
def colorDigitalTwin : String := "#4F46E5"
def colorGuidance : String := "#EC4899"
def colorExternal : String := "#F59E0B"
def colorTemporal : String := "#10B981"
def colorEdgeDefault : String := "#475569"
def colorLowConfidence : String := "#EF4444"
def colorMediumConfidence : String := "#EAB308"

/-! ## External-context data model (`generate_external_context` output) -/

/-- One entry of a context source's `sources` list.  Every generated entry
carries `name`, `type`, `reliability` and `date`; `content` only appears on
the archetype-specific entries.  The graph builder reads these through
`.get`, hence the `Option` fields. -/
structure CtxSrcItem where
  name : Option String
  typ : String
  reliability : ℚ
  date : String
  content : Option String
deriving DecidableEq

/-- One named external-context source.  `impact` is absent on the two base
sources; `sources` is read through `"sources" in source_data`. -/
structure CtxSource where
  active : Bool
  reliability : ℚ
  impact : Option ℚ
  sources : Option (List CtxSrcItem)
deriving DecidableEq

/-- The external-context map, in insertion order. -/
abbrev Ctx := List (String × CtxSource)

/-! ## Knowledge-graph builders (`src/utils/kg_generator.py`) -/

/-- A `financial_data` / `risk_data` argument of the builders: either a
single row (a pandas `Series`, dict-like — what `get_graph_for_stage`
passes) or a whole `DataFrame`, modelled as its list of rows. -/
inductive TableInput where
  | record (r : PyDict)
  | frame (rows : List PyDict)
deriving DecidableEq

/-- The `isinstance(_, pd.DataFrame)` conversion at the top of the builders:
a non-empty frame is replaced by its first row (`iloc[0].to_dict()`); an
empty frame keeps flowing and its `.get` / `in` behave like an empty
dict. -/
def asRecord : TableInput → PyDict
  | .record r => r
  | .frame [] => []
  | .frame (r :: _) => r

/-- The per-item `add_node`(size 15) + `add_edge`(width 1) loop body shared
by the builders' leaf groups; each pair is (node id, tooltip). -/
def leafOps (parent : String) (c : String) (infos : List (String × String)) : List GOp :=
  (infos.map (fun i => [GOp.node i.1 ⟨15, c, i.2⟩, GOp.edge parent i.1 ⟨1, none⟩])).flatten

/-- Embedding of `create_initial_knowledge_graph`.  Dict values become node
ids via Python's `str()`; profile keys are read with `[]` semantics, so a
missing key yields `Except.error` carrying `str(KeyError)` (the quoted
key), in the source's evaluation order. -/
def create_initial_knowledge_graph (company_profile : PyDict) : Except String Graph := do
  let name := pyToStr (← dgetE company_profile "name")
  let industry := pyToStr (← dgetE company_profile "industry")
  let businessType := pyToStr (← dgetE company_profile "business_type")
  let years := pyToStr (← dgetE company_profile "years_in_business")
  let employees := pyToStr (← dgetE company_profile "employees")
  let location := pyToStr (← dgetE company_profile "location")
  let amount ← fmtCommaE (← dgetE company_profile "loan_amount_requested")
  let purpose := pyToStr (← dgetE company_profile "loan_purpose")
  let term := pyToStr (← dgetE company_profile "loan_term_requested")
  let collateral := pyToStr (← dgetE company_profile "collateral_offered")
  let credit := pyToStr (← dgetE company_profile "credit_score")
  let prevLoans := pyToStr (← dgetE company_profile "previous_loans")
  let prevRepaid := pyToStr (← dgetE company_profile "previous_loans_repaid")
  pure (applyOps Graph.empty
    ([GOp.node name ⟨30, colorDigitalTwin, name⟩,
      GOp.node "Basic Information" ⟨20, colorPrimary, "Basic Company Information"⟩,
      GOp.edge name "Basic Information" ⟨2, none⟩] ++
     leafOps "Basic Information" colorPrimary
       [("Industry: " ++ industry, "Industry: " ++ industry),
        ("Business Type: " ++ businessType, "Business Type: " ++ businessType),
        ("Years in Business: " ++ years, "Years in Business: " ++ years),
        ("Employees: " ++ employees, "Employees: " ++ employees),
        ("Location: " ++ location, "Location: " ++ location)] ++
     [GOp.node "Loan Request" ⟨20, colorPrimary, "Loan Request Details"⟩,
      GOp.edge name "Loan Request" ⟨2, none⟩] ++
     leafOps "Loan Request" colorPrimary
       [("Amount: $" ++ amount, "Loan Amount: $" ++ amount),
        ("Purpose: " ++ purpose, "Loan Purpose: " ++ purpose),
        ("Term: " ++ term ++ " years", "Loan Term: " ++ term ++ " years"),
        ("Collateral: " ++ collateral, "Collateral: " ++ collateral)] ++
     [GOp.node "Credit History" ⟨20, colorPrimary, "Credit History"⟩,
      GOp.edge name "Credit History" ⟨2, none⟩] ++
     leafOps "Credit History" colorPrimary
       [("Credit Score: " ++ credit, "Credit Score: " ++ credit),
        ("Previous Loans: " ++ prevLoans, "Previous Loans: " ++ prevLoans),
        ("Loans Repaid: " ++ prevRepaid, "Loans Repaid: " ++ prevRepaid)]))

/-- The `add_node` / `add_edge` statements of
`create_expanded_knowledge_graph` beyond the initial graph, in source
order.  None of their arguments reads the graph, so the statement sequence
is computed separately and then applied. -/
def expandedOpsE (company_profile : PyDict) (financial_data : TableInput) :
    Except String (List GOp) := do
  let fin := asRecord financial_data
  let name := pyToStr (← dgetE company_profile "name")
  let revenue ← fmtMoneyE (dget fin "revenue" (.int 0))
  let margin ← fmtPct1E (dget fin "profit_margin" (.int 0))
  let cash ← fmtMoneyE (dget fin "cash_balance" (.int 0))
  let debt ← fmtF2E (dget fin "debt_ratio" (.int 0))
  let industry ← dgetE company_profile "industry"
  let indOps ←
    if pyEqS industry "Software Development" && dmem fin "customer_acquisition_cost" then do
      let cac ← fmtF0E (dget fin "customer_acquisition_cost" (.int 0))
      let mrr ← fmtMoneyE (dget fin "monthly_recurring_revenue" (.int 0))
      let ltv ← fmtMoneyE (dget fin "customer_lifetime_value" (.int 0))
      pure ([GOp.node "SaaS Metrics" ⟨20, colorPrimary, "SaaS Business Metrics"⟩,
             GOp.edge name "SaaS Metrics" ⟨2, none⟩] ++
            leafOps "SaaS Metrics" colorPrimary
              [("CAC: $" ++ cac, "Customer Acquisition Cost: $" ++ cac),
               ("MRR: $" ++ mrr, "Monthly Recurring Revenue: $" ++ mrr),
               ("LTV: $" ++ ltv, "Customer Lifetime Value: $" ++ ltv)])
    else if pyEqS industry "Manufacturing" && dmem fin "raw_material_costs" then do
      let material ← fmtMoneyE (dget fin "raw_material_costs" (.int 0))
      let capacity ← fmtPct1E (dget fin "capacity_utilization" (.int 0))
      let backlog ← fmtMoneyE (dget fin "order_backlog" (.int 0))
      pure ([GOp.node "Manufacturing Metrics" ⟨20, colorPrimary, "Manufacturing Metrics"⟩,
             GOp.edge name "Manufacturing Metrics" ⟨2, none⟩] ++
            leafOps "Manufacturing Metrics" colorPrimary
              [("Material Costs: $" ++ material, "Raw Material Costs: $" ++ material),
               ("Capacity Utilization: " ++ capacity ++ "%",
                "Capacity Utilization: " ++ capacity ++ "%"),
               ("Order Backlog: $" ++ backlog, "Order Backlog: $" ++ backlog)])
    else if pyEqS industry "Retail" && dmem fin "same_store_sales_growth" then do
      let ssg ← fmtPct1E (dget fin "same_store_sales_growth" (.int 0))
      let turnover ← fmtF1E (dget fin "inventory_turnover" (.int 0))
      let traffic ← fmtMoneyE (dget fin "customer_traffic" (.int 0))
      pure ([GOp.node "Retail Metrics" ⟨20, colorPrimary, "Retail Metrics"⟩,
             GOp.edge name "Retail Metrics" ⟨2, none⟩] ++
            leafOps "Retail Metrics" colorPrimary
              [("Same Store Sales Growth: " ++ ssg ++ "%",
                "Same Store Sales Growth: " ++ ssg ++ "%"),
               ("Inventory Turnover: " ++ turnover ++ "x",
                "Inventory Turnover: " ++ turnover ++ "x"),
               ("Customer Traffic: " ++ traffic, "Monthly Customer Traffic: " ++ traffic)])
    else pure []
  let teamSize := pyToStr (dget company_profile "management_team_size" (.str "Unknown"))
  let exper := pyToStr (dget company_profile "management_experience_years" (.str "Unknown"))
  let custOps :=
    match company_profile.lookup "customer_count" with
    | some cc =>
      if !(pyEqS cc "General public") then
        let count := pyToStr (dget company_profile "customer_count" (.str "Unknown"))
        let conc := pyToStr (dget company_profile "largest_customer_percentage" (.str "Unknown"))
        [GOp.node "Customers" ⟨20, colorPrimary, "Customer Information"⟩,
         GOp.edge name "Customers" ⟨2, none⟩] ++
        leafOps "Customers" colorPrimary
          [("Count: " ++ count, "Customer Count: " ++ count),
           ("Concentration: " ++ conc ++ "%", "Largest Customer: " ++ conc ++ "% of revenue")]
      else []
    | none => []
  pure
    ([GOp.node "Financial Metrics" ⟨20, colorPrimary, "Financial Metrics"⟩,
      GOp.edge name "Financial Metrics" ⟨2, none⟩] ++
     leafOps "Financial Metrics" colorPrimary
       [("Revenue: $" ++ revenue, "Revenue: $" ++ revenue),
        ("Profit Margin: " ++ margin ++ "%", "Profit Margin: " ++ margin ++ "%"),
        ("Cash Balance: $" ++ cash, "Cash Balance: $" ++ cash),
        ("Debt Ratio: " ++ debt, "Debt Ratio: " ++ debt)] ++
     indOps ++
     [GOp.node "Management" ⟨20, colorPrimary, "Management Information"⟩,
      GOp.edge name "Management" ⟨2, none⟩] ++
     leafOps "Management" colorPrimary
       [("Team Size: " ++ teamSize, "Management Team Size: " ++ teamSize),
        ("Experience: " ++ exper ++ " years", "Average Experience: " ++ exper ++ " years")] ++
     custOps)

/-- Embedding of `create_expanded_knowledge_graph`: extends the initial
graph with financial metrics, industry-specific metrics, management and
(conditionally) customer groups. -/
def create_expanded_knowledge_graph (company_profile : PyDict)
    (financial_data : TableInput) : Except String Graph := do
  let G ← create_initial_knowledge_graph company_profile
  let ops ← expandedOpsE company_profile financial_data
  pure (applyOps G ops)

/-- The `add_node` / `add_edge` statements of
`create_comprehensive_knowledge_graph` for the risk, external-context and
temporal groups, in source order; their arguments never read the graph. -/
def comprehensiveOpsE (company_profile : PyDict) (risk_data : PyDict)
    (external_context : Option Ctx) (financial_data : TableInput) :
    Except String (List GOp) := do
  let name := pyToStr (← dgetE company_profile "name")
  let rs ← fmtF2E (dget risk_data "risk_score" (.int 0))
  let cs ← fmtF2E (dget risk_data "confidence_score" (.int 0))
  let fhOps ← if dmem risk_data "financial_health_score" then do
      let s ← fmtF2E (dget risk_data "financial_health_score" (.int 0))
      pure [("Financial Health: " ++ s, "Financial Health Score: " ++ s)]
    else pure []
  let mrOps ← if dmem risk_data "management_risk_score" then do
      let s ← fmtF2E (dget risk_data "management_risk_score" (.int 0))
      pure [("Management Risk: " ++ s, "Management Risk Score: " ++ s)]
    else pure []
  let irOps ← if dmem risk_data "industry_risk_score" then do
      let s ← fmtF2E (dget risk_data "industry_risk_score" (.int 0))
      pure [("Industry Risk: " ++ s, "Industry Risk Score: " ++ s)]
    else pure []
  let ecOps ← if dmem risk_data "external_context_score" then do
      let s ← fmtF2E (dget risk_data "external_context_score" (.int 0))
      pure [("External Risk: " ++ s, "External Context Risk Score: " ++ s)]
    else pure []
  let riskMetrics := [("Risk Score: " ++ rs, "Overall Risk Score: " ++ rs),
                      ("Confidence: " ++ cs, "Confidence Score: " ++ cs)] ++
                     fhOps ++ mrOps ++ irOps ++ ecOps
  let ctxOps :=
    match external_context with
    | none => []
    | some ctx =>
      if ctx.isEmpty then []
      else
        [GOp.node "External Context" ⟨20, colorExternal, "External Context"⟩,
         GOp.edge name "External Context" ⟨2, none⟩] ++
        (ctx.map (fun p =>
          if p.2.active then
            [GOp.node p.1 ⟨15, colorExternal,
               p.1 ++ " (Reliability: " ++ pyFixed 2 p.2.reliability ++ ")"⟩,
             GOp.edge "External Context" p.1 ⟨1, none⟩] ++
            (match p.2.sources with
             | none => []
             | some items =>
               ((items.take 2).map (fun it =>
                 [GOp.node (it.name.getD "Source")
                    ⟨10, colorExternal, it.content.getD (it.name.getD "Source")⟩,
                  GOp.edge p.1 (it.name.getD "Source") ⟨1, none⟩])).flatten)
          else [])).flatten
  let tempOps ←
    match financial_data with
    | .record _ => pure ([] : List GOp)
    | .frame rows =>
      if rows.length > 1 then do
        let industry ← dgetE company_profile "industry"
        let trends :=
          if pyEqS industry "Software Development" then
            [("Growth Trend", "Consistent revenue growth pattern"),
             ("Margin Stability", "Stable profit margins over time"),
             ("Increasing LTV/CAC Ratio", "Improving unit economics")]
          else if pyEqS industry "Manufacturing" then
            [("Capacity Utilization Trend", "Changing factory utilization over time"),
             ("Material Cost Pressure", "Rising raw material costs"),
             ("Order Backlog Evolution", "Changing order pipeline")]
          else if pyEqS industry "Retail" then
            [("Store Traffic Decline", "Decreasing customer visits over time"),
             ("Margin Compression", "Decreasing profit margins"),
             ("Inventory Turnover Slowdown", "Slowing inventory movement")]
          else
            [("Revenue Trend", "Revenue change over time"),
             ("Margin Trend", "Profit margin evolution"),
             ("Cash Flow Pattern", "Cash flow stability over time")]
        pure ([GOp.node "Temporal Intelligence" ⟨20, colorTemporal, "Temporal Intelligence"⟩,
               GOp.edge name "Temporal Intelligence" ⟨2, none⟩] ++
              leafOps "Temporal Intelligence" colorTemporal trends)
      else pure []
  pure
    ([GOp.node "Risk Assessment" ⟨20, colorGuidance, "Risk Assessment"⟩,
      GOp.edge name "Risk Assessment" ⟨2, none⟩] ++
     leafOps "Risk Assessment" colorGuidance riskMetrics ++ ctxOps ++ tempOps)

/-- The cross-connection block closing
`create_comprehensive_knowledge_graph`: each conditional edge is added to
the graph built so far, with the membership tests evaluated sequentially
exactly as in the source (the first three conditions test the literal node
names "Financial Health: ", "Industry Risk: " and "Management Risk: "). -/
def crossConnect (G1 : Graph) (risk_data : PyDict) : Graph :=
  let G2 := applyOps G1
    (if hasNode G1 "Financial Health: " &&
        !((nodeIds G1).filter (fun n => strContains n "Financial Metrics")).isEmpty then
      [GOp.edge ("Financial Health: " ++ pyToStr (dget risk_data "financial_health_score" (.int 0)))
        "Financial Metrics" ⟨1, some colorEdgeDefault⟩]
    else [])
  let G3 := applyOps G2
    (if hasNode G2 "Industry Risk: " && hasNode G2 "External Context" then
      [GOp.edge ("Industry Risk: " ++ pyToStr (dget risk_data "industry_risk_score" (.int 0)))
        "External Context" ⟨1, some colorEdgeDefault⟩]
    else [])
  let G4 := applyOps G3
    (if hasNode G3 "Management Risk: " && hasNode G3 "Management" then
      [GOp.edge ("Management Risk: " ++ pyToStr (dget risk_data "management_risk_score" (.int 0)))
        "Management" ⟨1, some colorEdgeDefault⟩]
    else [])
  let G5 := applyOps G4
    (if hasNode G4 "External Context" && hasNode G4 "Financial Metrics" then
      [GOp.edge "External Context" "Financial Metrics" ⟨1, some colorEdgeDefault⟩]
    else [])
  applyOps G5
    (if hasNode G5 "Temporal Intelligence" && hasNode G5 "Financial Metrics" then
      [GOp.edge "Temporal Intelligence" "Financial Metrics" ⟨1, some colorEdgeDefault⟩]
    else [])

/-- Embedding of `create_comprehensive_knowledge_graph`: extends the
expanded graph with risk metrics, external context, a temporal layer (only
when a multi-row frame is passed) and the cross-connection block. -/
def create_comprehensive_knowledge_graph (company_profile : PyDict)
    (financial_data : TableInput) (risk_data_in : TableInput)
    (external_context : Option Ctx) : Except String Graph := do
  let G ← create_expanded_knowledge_graph company_profile financial_data
  let risk_data := asRecord risk_data_in
  let ops ← comprehensiveOpsE company_profile risk_data external_context financial_data
  pure (crossConnect (applyOps G ops) risk_data)

/-! ## Journey-stage orchestration (`get_graph_for_stage`, second
definition, which shadows the first one in the module) -/

/-- The `applicant_data` bundle.  The three mandatory keys are read with
`[]` (a missing key raises `KeyError`); `external_context` is read with
`.get(…, None)`. -/
structure Bundle where
  company_profile : Option PyDict
  financial_data : Option (List PyDict)
  risk_scores : Option (List PyDict)
  external_context : Option Ctx
deriving DecidableEq

/-- Python `d[k]` on the bundle. -/
def bgetE {α : Type} (o : Option α) (k : String) : Except String α :=
  match o with
  | some v => .ok v
  | none => .error ("'" ++ k ++ "'")

/-- The default stage-to-index mapping of `get_graph_for_stage`. -/
def default_stage_to_index : List (String × ℤ) :=
  [("Initial Application", 0), ("Information Gathering", 2), ("Risk Assessment", 5),
   ("Decision Point", 8), ("Monitoring Phase", 11)]

/-- pandas `DataFrame.iloc[i]` row access, including negative indexing;
out-of-bounds raises `IndexError`. -/
def ilocE (rows : List PyDict) (i : ℤ) : Except String PyDict :=
  if 0 ≤ i ∧ i < (rows.length : ℤ) then .ok (rows.getD i.toNat [])
  else if -(rows.length : ℤ) ≤ i ∧ i < 0 then .ok (rows.getD (i + rows.length).toNat [])
  else .error "single positional indexer is out-of-bounds"

/-- The body of `get_graph_for_stage` up to its `except` clause. -/
def get_graph_for_stage_core (applicant_data : Bundle) (journey_stage : String)
    (stage_to_index : Option (List (String × ℤ))) : Except String Graph := do
  let company_profile ← bgetE applicant_data.company_profile "company_profile"
  let financial_data ← bgetE applicant_data.financial_data "financial_data"
  let risk_scores ← bgetE applicant_data.risk_scores "risk_scores"
  let external_context := applicant_data.external_context
  let stageMap := stage_to_index.getD default_stage_to_index
  let idx0 : ℤ := (stageMap.lookup journey_stage).getD 0
  let current_index : ℤ :=
    if idx0 ≥ (financial_data.length : ℤ) then (financial_data.length : ℤ) - 1 else idx0
  if journey_stage == "Initial Application" then
    create_initial_knowledge_graph company_profile
  else if journey_stage == "Information Gathering" then do
    let row ← ilocE financial_data current_index
    create_expanded_knowledge_graph company_profile (.record row)
  else do
    let frow ← ilocE financial_data current_index
    let rrow ← ilocE risk_scores current_index
    create_comprehensive_knowledge_graph company_profile (.record frow) (.record rrow)
      external_context

/-- The fallback graph built in the `except` clause. -/
def errorGraph (e : String) : Graph :=
  addNode Graph.empty "Error" ⟨25, colorLowConfidence, "Error generating graph: " ++ e⟩

/-- Embedding of `get_graph_for_stage`: any exception from the body is
caught and turned into the single-node fallback graph. -/
def get_graph_for_stage (applicant_data : Bundle) (journey_stage : String)
    (stage_to_index : Option (List (String × ℤ))) : Graph :=
  match get_graph_for_stage_core applicant_data journey_stage stage_to_index with
  | .ok G => G
  | .error e => errorGraph e

/-! ## Scenario data generator (`src/utils/demo_data.py`) -/

/-- The three applicant archetypes (`applicant_type` vocabulary). -/
inductive Archetype where
  | strong
  | unclear
  | challenged
deriving DecidableEq

/-- The directory / storage key of an archetype. -/
def Archetype.key : Archetype → String
  | .strong => "strong_applicant"
  | .unclear => "unclear_applicant"
  | .challenged => "challenged_applicant"

/-- `MONTHS` constant of the generator. -/
def MONTHS : ℕ := 12

/-- Month lengths of 2023 (`START_DATE = datetime(2023, 1, 1)`; all
generated dates stay inside 2023). -/
def monthLengths : List ℕ := [31, 28, 31, 30, 31, 30, 31, 31, 30, 31, 30, 31]

/-- Convert a zero-based day offset into 2023 into (month, day). -/
def mdOfDay : List ℕ → ℕ → ℕ → ℕ × ℕ
  | [], m, d => (m, d + 1)
  | len :: rest, m, d => if d < len then (m, d + 1) else mdOfDay rest (m + 1) (d - len)

/-- `(START_DATE + timedelta(days=k)).strftime("%Y-%m-%d")`. -/
def dayStr (k : ℕ) : String :=
  let p := mdOfDay monthLengths 1 k
  "2023-" ++ padZeros (Nat.repr p.1) 2 ++ "-" ++ padZeros (Nat.repr p.2) 2

/-- The date of month `i` of the generated series (`START_DATE + 30*i`
days). -/
def dateStr (i : ℕ) : String := dayStr (30 * i)

/-- Embedding of `generate_company_profile`: static per-archetype dicts. -/
def generate_company_profile : Archetype → PyDict
  | .strong =>
    [("name", .str "TechInnovate Solutions"), ("industry", .str "Software Development"),
     ("business_type", .str "B2B SaaS Platform"), ("years_in_business", .int 7),
     ("employees", .int 48), ("location", .str "Austin, TX"),
     ("ownership_structure", .str "LLC"), ("management_team_size", .int 5),
     ("management_experience_years", .int 15), ("customer_count", .int 120),
     ("largest_customer_percentage", .int 12), ("loan_amount_requested", .int 500000),
     ("loan_purpose", .str "Expansion into new markets"), ("loan_term_requested", .int 5),
     ("collateral_offered", .str "Intellectual property and equipment"),
     ("previous_loans", .int 1), ("previous_loans_repaid", .int 1),
     ("credit_score", .str "A"),
     ("description", .str "TechInnovate Solutions provides cloud-based workflow automation software for professional services firms. With a stable customer base and strong management team, they're seeking funding to expand into healthcare and financial services verticals.")]
  | .unclear =>
    [("name", .str "ManufacturePro Inc."), ("industry", .str "Manufacturing"),
     ("business_type", .str "Custom Metal Fabrication"), ("years_in_business", .int 12),
     ("employees", .int 73), ("location", .str "Detroit, MI"),
     ("ownership_structure", .str "S-Corp"), ("management_team_size", .int 4),
     ("management_experience_years", .int 20), ("customer_count", .int 45),
     ("largest_customer_percentage", .int 28), ("loan_amount_requested", .int 750000),
     ("loan_purpose", .str "Equipment modernization"), ("loan_term_requested", .int 7),
     ("collateral_offered", .str "Equipment and property"),
     ("previous_loans", .int 3), ("previous_loans_repaid", .int 3),
     ("credit_score", .str "B+"),
     ("description", .str "ManufacturePro specializes in custom metal fabrication for automotive and aerospace industries. While they have a strong history, they face increasing competition from overseas and need to modernize equipment to remain competitive.")]
  | .challenged =>
    [("name", .str "RetailGiant Stores"), ("industry", .str "Retail"),
     ("business_type", .str "Multi-location Retail Chain"), ("years_in_business", .int 15),
     ("employees", .int 95), ("location", .str "Phoenix, AZ"),
     ("ownership_structure", .str "C-Corp"), ("management_team_size", .int 6),
     ("management_experience_years", .int 8), ("customer_count", .str "General public"),
     ("largest_customer_percentage", .str "N/A"), ("loan_amount_requested", .int 1200000),
     ("loan_purpose", .str "Debt consolidation and store renovations"),
     ("loan_term_requested", .int 10),
     ("collateral_offered", .str "Real estate and inventory"),
     ("previous_loans", .int 5), ("previous_loans_repaid", .int 4),
     ("credit_score", .str "C+"),
     ("description", .str "RetailGiant operates a chain of general merchandise stores across Arizona. They face significant challenges from e-commerce disruption, have experienced recent management turnover, and need funding to consolidate existing debt and renovate stores to remain viable.")]

/-- One noise value per `random.uniform` call site and month of
`generate_financial_data`.  The source draws each value independently and
uniformly (from `[-volatility, volatility]`, or half that range for the
debt ratio); quantifying over arbitrary noise functions covers every
possible draw. -/
structure FinNoise where
  rev : ℕ → ℚ
  margin : ℕ → ℚ
  cash : ℕ → ℚ
  debt : ℕ → ℚ
  ar : ℕ → ℚ
  inv : ℕ → ℚ
  indA : ℕ → ℚ
  indB : ℕ → ℚ
  indC : ℕ → ℚ

def baseRevenue : Archetype → ℚ
  | .strong => 250000 | .unclear => 420000 | .challenged => 580000

def revenueTrend : Archetype → ℚ
  | .strong => 0.03 | .unclear => 0.01 | .challenged => -0.02

def baseMargin : Archetype → ℚ
  | .strong => 0.18 | .unclear => 0.12 | .challenged => 0.08

def marginTrend : Archetype → ℚ
  | .strong => 0.001 | .unclear => -0.002 | .challenged => -0.004

def baseCash : Archetype → ℚ
  | .strong => 180000 | .unclear => 210000 | .challenged => 150000

def cashTrend : Archetype → ℚ
  | .strong => 0.02 | .unclear => 0.005 | .challenged => -0.03

def baseDebt : Archetype → ℚ
  | .strong => 0.25 | .unclear => 0.38 | .challenged => 0.45

def debtTrend : Archetype → ℚ
  | .strong => -0.005 | .unclear => 0.001 | .challenged => 0.01

/-- `volatility` of `generate_financial_data`. -/
def finVolatility : Archetype → ℚ
  | .strong => 0.05 | .unclear => 0.08 | .challenged => 0.12

def revenueAt (a : Archetype) (ν : FinNoise) (i : ℕ) : ℚ :=
  baseRevenue a * (1 + revenueTrend a * i + ν.rev i)

def profitMarginAt (a : Archetype) (ν : FinNoise) (i : ℕ) : ℚ :=
  max 0.01 (baseMargin a * (1 + marginTrend a * i + ν.margin i))

def cashBalanceAt (a : Archetype) (ν : FinNoise) (i : ℕ) : ℚ :=
  baseCash a * (1 + cashTrend a * i + ν.cash i)

def debtRatioAt (a : Archetype) (ν : FinNoise) (i : ℕ) : ℚ :=
  min 0.9 (max 0.1 (baseDebt a * (1 + debtTrend a * i + ν.debt i)))

def accountsReceivableAt (a : Archetype) (ν : FinNoise) (i : ℕ) : ℚ :=
  baseRevenue a * 0.3 * (1 + ν.ar i)

def inventoryAt (a : Archetype) (ν : FinNoise) (i : ℕ) : ℚ :=
  baseRevenue a * 0.25 * (1 + ν.inv i)

/-- The industry-specific columns appended per archetype. -/
def indFieldsAt (a : Archetype) (ν : FinNoise) (i : ℕ) : PyDict :=
  match a with
  | .strong =>
    [("customer_acquisition_cost", .num (350 * (1 + ν.indA i))),
     ("monthly_recurring_revenue",
      .num (baseRevenue a * 0.7 * (1 + revenueTrend a * i + ν.indB i))),
     ("customer_lifetime_value", .num (2100 * (1 + 0.01 * i + ν.indC i)))]
  | .unclear =>
    [("raw_material_costs", .num (baseRevenue a * 0.4 * (1 + 0.015 * i + ν.indA i))),
     ("capacity_utilization", .num (0.72 * (1 + -0.005 * i + ν.indB i))),
     ("order_backlog", .num (baseRevenue a * 1.2 * (1 + -0.01 * i + ν.indC i)))]
  | .challenged =>
    [("same_store_sales_growth", .num (-0.03 * (1 - 0.1 * i + ν.indA i))),
     ("inventory_turnover", .num (4.2 * (1 + -0.02 * i + ν.indB i))),
     ("customer_traffic", .num (8500 * (1 + -0.025 * i + ν.indC i)))]

/-- Row `i` of the generated financial `DataFrame` (columns in source
order). -/
def finRecordAt (a : Archetype) (ν : FinNoise) (i : ℕ) : PyDict :=
  [("date", .str (dateStr i)),
   ("revenue", .num (revenueAt a ν i)),
   ("profit_margin", .num (profitMarginAt a ν i)),
   ("cash_balance", .num (cashBalanceAt a ν i)),
   ("debt_ratio", .num (debtRatioAt a ν i)),
   ("accounts_receivable", .num (accountsReceivableAt a ν i)),
   ("inventory", .num (inventoryAt a ν i))] ++ indFieldsAt a ν i

/-- Embedding of `generate_financial_data`: the column dict converted to a
`DataFrame` is modelled as its list of rows. -/
def generate_financial_data (a : Archetype) (ν : FinNoise) : List PyDict :=
  (List.range MONTHS).map (finRecordAt a ν)

/-- One noise value per `random.uniform` call site and month of
`generate_risk_scores`. -/
structure RiskNoise where
  risk : ℕ → ℚ
  conf : ℕ → ℚ
  fh : ℕ → ℚ
  mgmt : ℕ → ℚ
  ind : ℕ → ℚ
  ext : ℕ → ℚ

def baseRisk : Archetype → ℚ
  | .strong => 0.25 | .unclear => 0.45 | .challenged => 0.65

def riskTrend : Archetype → ℚ
  | .strong => -0.01 | .unclear => 0.005 | .challenged => 0.02

def baseConfidence : Archetype → ℚ
  | .strong => 0.75 | .unclear => 0.60 | .challenged => 0.55

def confidenceTrend : Archetype → ℚ
  | .strong => 0.02 | .unclear => 0.01 | .challenged => 0.005

/-- `volatility` of `generate_risk_scores`. -/
def riskVolatility : Archetype → ℚ
  | .strong => 0.05 | .unclear => 0.08 | .challenged => 0.10

/-- `min(0.95, max(0.05, x))`: the clamp applied to risk and component
scores. -/
def clamp0595 (x : ℚ) : ℚ := min 0.95 (max 0.05 x)

def riskScoreAt (a : Archetype) (ν : RiskNoise) (i : ℕ) : ℚ :=
  clamp0595 (baseRisk a + riskTrend a * i + ν.risk i)

def confidenceScoreAt (a : Archetype) (ν : RiskNoise) (i : ℕ) : ℚ :=
  min 0.95 (max 0.30 (baseConfidence a + confidenceTrend a * i + ν.conf i))

def financialHealthAt (a : Archetype) (ν : RiskNoise) (i : ℕ) : ℚ :=
  clamp0595 (1 - (riskScoreAt a ν i * 0.8 + ν.fh i))

def managementRiskAt (a : Archetype) (ν : RiskNoise) (i : ℕ) : ℚ :=
  clamp0595 (riskScoreAt a ν i * 0.9 + ν.mgmt i)

def industryRiskAt (a : Archetype) (ν : RiskNoise) (i : ℕ) : ℚ :=
  clamp0595 (riskScoreAt a ν i * 1.1 + ν.ind i)

def externalScoreAt (a : Archetype) (ν : RiskNoise) (i : ℕ) : ℚ :=
  clamp0595 (riskScoreAt a ν i * 0.95 + ν.ext i)

/-- Row `i` of the generated risk-score `DataFrame`. -/
def riskRecordAt (a : Archetype) (ν : RiskNoise) (i : ℕ) : PyDict :=
  [("date", .str (dateStr i)),
   ("risk_score", .num (riskScoreAt a ν i)),
   ("confidence_score", .num (confidenceScoreAt a ν i)),
   ("financial_health_score", .num (financialHealthAt a ν i)),
   ("management_risk_score", .num (managementRiskAt a ν i)),
   ("industry_risk_score", .num (industryRiskAt a ν i)),
   ("external_context_score", .num (externalScoreAt a ν i))]

/-- Embedding of `generate_risk_scores`. -/
def generate_risk_scores (a : Archetype) (ν : RiskNoise) : List PyDict :=
  (List.range MONTHS).map (riskRecordAt a ν)

/-- The two base context sources shared by all archetypes. -/
def baseContext : Ctx :=
  [("industry_trends",
    { active := true, reliability := 0.85, impact := none,
      sources := some
        [{ name := some "Industry Growth Forecast", typ := "report",
           reliability := 0.88, date := dayStr 45, content := none },
         { name := some "Market Size Analysis", typ := "market_research",
           reliability := 0.82, date := dayStr 60, content := none }] }),
   ("economic_indicators",
    { active := true, reliability := 0.92, impact := none,
      sources := some
        [{ name := some "Federal Reserve Interest Rate Guidance", typ := "official",
           reliability := 0.95, date := dayStr 30, content := none },
         { name := some "Quarterly GDP Report", typ := "official",
           reliability := 0.90, date := dayStr 50, content := none }] })]

/-- Embedding of `generate_external_context`. -/
def generate_external_context : Archetype → Ctx
  | .strong => baseContext ++
    [("technology_adoption",
      { active := true, reliability := 0.82, impact := some 0.12,
        sources := some
          [{ name := some "SaaS Adoption Survey", typ := "market_research",
             reliability := 0.78, date := dayStr 55,
             content := some "Survey shows 42% increase in SaaS adoption among mid-sized businesses." },
           { name := some "Cloud Technology Forecast", typ := "analyst_report",
             reliability := 0.85, date := dayStr 70,
             content := some "Projected 22% CAGR for cloud workflow solutions over next 5 years." }] }),
     ("competitive_landscape",
      { active := true, reliability := 0.75, impact := some 0.08,
        sources := some
          [{ name := some "Competitor Funding News", typ := "news",
             reliability := 0.70, date := dayStr 40,
             content := some "Two competitors secured Series B funding, validating market potential." },
           { name := some "Market Share Analysis", typ := "market_research",
             reliability := 0.80, date := dayStr 65,
             content := some "Company has gained 2.5% market share in the past year." }] })]
  | .unclear => baseContext ++
    [("supply_chain_issues",
      { active := true, reliability := 0.78, impact := some (-0.10),
        sources := some
          [{ name := some "Materials Cost Index", typ := "industry_data",
             reliability := 0.85, date := dayStr 35,
             content := some "Raw material costs increased 15% over past quarter." },
           { name := some "Supply Chain Disruption Report", typ := "news",
             reliability := 0.72, date := dayStr 55,
             content := some "Transportation delays affecting 40% of manufacturers in the sector." }] }),
     ("automation_trends",
      { active := true, reliability := 0.80, impact := some 0.15,
        sources := some
          [{ name := some "Manufacturing Automation Report", typ := "industry_report",
             reliability := 0.82, date := dayStr 60,
             content := some "Companies investing in automation seeing 28% efficiency improvements." },
           { name := some "Industry 4.0 Adoption Study", typ := "academic_research",
             reliability := 0.88, date := dayStr 75,
             content := some "Early adopters of smart manufacturing technologies showing 22% cost advantage." }] })]
  | .challenged => baseContext ++
    [("retail_disruption",
      { active := true, reliability := 0.90, impact := some (-0.25),
        sources := some
          [{ name := some "Retail Sector Analysis", typ := "industry_report",
             reliability := 0.92, date := dayStr 30,
             content := some "Physical retail locations decreasing at 8% annually in this segment." },
           { name := some "E-commerce Impact Study", typ := "market_research",
             reliability := 0.88, date := dayStr 50,
             content := some "E-commerce now accounts for 35% of sales in this category, up from 22% last year." }] }),
     ("consumer_behavior",
      { active := true, reliability := 0.75, impact := some (-0.18),
        sources := some
          [{ name := some "Consumer Spending Trends", typ := "market_research",
             reliability := 0.78, date := dayStr 40,
             content := some "In-store visits down 22% year-over-year for this retail category." },
           { name := some "Shopping Pattern Analysis", typ := "behavioral_research",
             reliability := 0.72, date := dayStr 65,
             content := some "Consumers increasingly research online before making purchases, with 62% comparing prices digitally." }] })]

/-! ## Flat-file store and `generate_all_data` -/

/-- Content of a stored file.  The components whose bodies no claim
inspects (`events`, `knowledge_graphs`, `next_best_information`,
`reasoning_paths`, `confidence_components`) are deterministic
archetype-indexed constants in the source and are stored as archetype-
tagged values. -/
inductive FileData where
  | profile (p : PyDict)
  | table (rows : List PyDict)
  | ctx (c : Ctx)
  | events (a : Archetype)
  | knowledgeGraphs (a : Archetype)
  | nextBestInfo (a : Archetype)
  | reasoningPaths (a : Archetype)
  | confidenceComponents (a : Archetype)
deriving DecidableEq

/-- The flat-file store: an insertion-ordered map from path to content. -/
abbrev FS := List (String × FileData)

def fsExists (fs : FS) (p : String) : Bool :=
  fs.any (fun e => e.1 == p)

/-- Write (create or overwrite) a file. -/
def fsWrite (fs : FS) (p : String) (d : FileData) : FS :=
  if fsExists fs p then fs.map (fun e => if e.1 == p then (p, d) else e)
  else fs ++ [(p, d)]

def fsGet (fs : FS) (p : String) : Option FileData :=
  fs.lookup p

/-- Drop a file (manual deletion of a stored file). -/
def fsRemove (fs : FS) (p : String) : FS :=
  fs.filter (fun e => !(e.1 == p))

/-- `os.path.join(DATA_DIR, applicant_type, filename)`. -/
def filePath (a : Archetype) (f : String) : String :=
  "data/" ++ a.key ++ "/" ++ f

/-- The `basic_files` list of `check_data_exists`. -/
def basicFiles : List String :=
  ["company_profile.json", "financial_data.csv", "risk_scores.csv",
   "events.json", "external_context.json"]

/-- All nine files `generate_all_data` writes per archetype (with the
extensions `save_data` chooses). -/
def componentFiles : List String :=
  ["company_profile.json", "financial_data.csv", "events.json", "risk_scores.csv",
   "external_context.json", "knowledge_graphs.json", "next_best_information.json",
   "reasoning_paths.json", "confidence_components.json"]

/-- Embedding of `check_data_exists`. -/
def check_data_exists (fs : FS) (a : Archetype) : Bool :=
  basicFiles.all (fun f => fsExists fs (filePath a f))

/-- The per-archetype generate-and-save block of `generate_all_data`, in
source order. -/
def writeArchetype (fs : FS) (a : Archetype) (νf : FinNoise) (νr : RiskNoise) : FS :=
  let fs := fsWrite fs (filePath a "company_profile.json") (.profile (generate_company_profile a))
  let fs := fsWrite fs (filePath a "financial_data.csv") (.table (generate_financial_data a νf))
  let fs := fsWrite fs (filePath a "events.json") (.events a)
  let fs := fsWrite fs (filePath a "risk_scores.csv") (.table (generate_risk_scores a νr))
  let fs := fsWrite fs (filePath a "external_context.json") (.ctx (generate_external_context a))
  let fs := fsWrite fs (filePath a "knowledge_graphs.json") (.knowledgeGraphs a)
  let fs := fsWrite fs (filePath a "next_best_information.json") (.nextBestInfo a)
  let fs := fsWrite fs (filePath a "reasoning_paths.json") (.reasoningPaths a)
  fsWrite fs (filePath a "confidence_components.json") (.confidenceComponents a)

/-- The loop body of `generate_all_data`: skip the archetype if
`check_data_exists`, otherwise regenerate and save every component. -/
def genStep (νf : Archetype → FinNoise) (νr : Archetype → RiskNoise) (fs : FS)
    (a : Archetype) : FS :=
  if check_data_exists fs a then fs else writeArchetype fs a (νf a) (νr a)

/-- Embedding of `generate_all_data`: the loop over the three archetypes in
source order.  Directory creation has no effect on the file map. -/
def generate_all_data (fs : FS) (νf : Archetype → FinNoise) (νr : Archetype → RiskNoise) : FS :=
  [Archetype.strong, Archetype.unclear, Archetype.challenged].foldl (genStep νf νr) fs

/-! ## The static customer-concentration demo graph
(`create_customer_concentration_graph` in `src/utils/pyvis_utils.py`) -/

/-- The `customers` table of the demo graph: name, revenue string,
percentage (a Python int), color. -/
def ccCustomers : List (String × String × ℤ × String) :=
  [("Customer A", "$210K", 42, colorLowConfidence),
   ("Customer B", "$84K", 17, colorMediumConfidence),
   ("Customer C", "$63K", 13, colorPrimary),
   ("Customer D", "$42K", 8, colorPrimary),
   ("Customer E", "$21K", 4, colorPrimary),
   ("Others", "$80K", 16, colorPrimary)]

/-- Edge width of a customer node in the demo graph:
`max(1, percentage / 10)` (Python true division). -/
def ccEdgeWidth (pct : ℤ) : ℚ := max 1 ((pct : ℚ) / 10)

/-- Embedding of `create_customer_concentration_graph` (no inputs; a static
demo graph). -/
def create_customer_concentration_graph : Graph :=
  applyOps Graph.empty
    ([GOp.node "ManufacturePro" ⟨30, colorDigitalTwin, "Manufacturing Company"⟩,
      GOp.node "Customer Base" ⟨25, colorPrimary, "Company's Customers"⟩,
      GOp.edge "ManufacturePro" "Customer Base" ⟨3, none⟩] ++
     (ccCustomers.map (fun c =>
       let nodeName := c.1 ++ ": " ++ pyToStr (.int c.2.2.1) ++ "%"
       [GOp.node nodeName ⟨10 + (c.2.2.1 : ℚ) * 0.5, c.2.2.2,
          c.1 ++ ": " ++ c.2.1 ++ " (" ++ pyToStr (.int c.2.2.1) ++ "%)"⟩,
        GOp.edge "Customer Base" nodeName ⟨ccEdgeWidth c.2.2.1, none⟩])).flatten ++
     [GOp.node "Risk Assessment" ⟨25, colorGuidance, "Risk Analysis"⟩,
      GOp.edge "ManufacturePro" "Risk Assessment" ⟨3, none⟩,
      GOp.node "Customer Concentration Risk"
        ⟨20, colorLowConfidence, "High concentration risk with Customer A"⟩,
      GOp.edge "Risk Assessment" "Customer Concentration Risk" ⟨2, none⟩,
      GOp.edge "Customer A: 42%" "Customer Concentration Risk" ⟨2, some colorLowConfidence⟩,
      GOp.node "Industry Context" ⟨25, colorExternal, "Manufacturing Industry Context"⟩,
      GOp.edge "ManufacturePro" "Industry Context" ⟨3, none⟩,
      GOp.node "Industry Standard: 20% Max"
        ⟨15, colorExternal, "Industry recommendation: maximum 20% from single customer"⟩,
      GOp.edge "Industry Context" "Industry Standard: 20% Max" ⟨1, none⟩,
      GOp.edge "Industry Standard: 20% Max" "Customer Concentration Risk" ⟨1, some colorEdgeDefault⟩,
      GOp.node "Recommendations" ⟨25, colorGuidance, "Adaptive Guidance"⟩,
      GOp.edge "ManufacturePro" "Recommendations" ⟨3, none⟩,
      GOp.node "Customer Diversification Plan"
        ⟨15, colorGuidance, "Develop plan to reduce Customer A concentration"⟩,
      GOp.edge "Recommendations" "Customer Diversification Plan" ⟨2, none⟩,
      GOp.node "Modified Loan Terms"
        ⟨15, colorGuidance, "Adjust terms to account for concentration risk"⟩,
      GOp.edge "Recommendations" "Modified Loan Terms" ⟨2, none⟩,
      GOp.edge "Customer Concentration Risk" "Customer Diversification Plan" ⟨1, some colorEdgeDefault⟩,
      GOp.edge "Customer Concentration Risk" "Modified Loan Terms" ⟨1, some colorEdgeDefault⟩])

/-! ## Concrete dataset bundles used for witnesses and counterexamples -/

/-- A concrete admissible noise draw for the financial generator: every
`random.uniform(-volatility, volatility)` call returns `0.007`, which lies
inside every volatility bound used by the source (including the halved
`±volatility/2` bound of the debt-ratio draw). -/
def constFinNoise : FinNoise :=
  { rev := fun _ => 0.007, margin := fun _ => 0.007, cash := fun _ => 0.007,
    debt := fun _ => 0.007, ar := fun _ => 0.007, inv := fun _ => 0.007,
    indA := fun _ => 0.007, indB := fun _ => 0.007, indC := fun _ => 0.007 }

/-- The same concrete draw for the risk generator. -/
def constRiskNoise : RiskNoise :=
  { risk := fun _ => 0.007, conf := fun _ => 0.007, fh := fun _ => 0.007,
    mgmt := fun _ => 0.007, ind := fun _ => 0.007, ext := fun _ => 0.007 }

/-- The dataset bundle an archetype's generated data produces (profile,
financial series, risk series, external context), with the concrete noise
draw above. -/
def demoBundle (a : Archetype) : Bundle :=
  { company_profile := some (generate_company_profile a),
    financial_data := some (generate_financial_data a constFinNoise),
    risk_scores := some (generate_risk_scores a constRiskNoise),
    external_context := some (generate_external_context a) }

/-! ## State-passing forms of the builders

Python functions receive their dict/frame arguments by reference and could
mutate them; the builders contain no mutating statement and read no mutable
global state (`COLORS` is a module constant), so their state-passing
translation returns the inputs unchanged alongside the result. -/

def create_initial_knowledge_graphS (p : PyDict) : Except String Graph × PyDict :=
  (create_initial_knowledge_graph p, p)

def create_expanded_knowledge_graphS (p : PyDict) (fin : TableInput) :
    Except String Graph × PyDict × TableInput :=
  (create_expanded_knowledge_graph p fin, p, fin)

def create_comprehensive_knowledge_graphS (p : PyDict) (fin : TableInput)
    (risk : TableInput) (ctx : Option Ctx) :
    Except String Graph × PyDict × TableInput × TableInput × Option Ctx :=
  (create_comprehensive_knowledge_graph p fin risk ctx, p, fin, risk, ctx)

/-! ## Subgraph infrastructure -/

/-- Propositional subgraph relation used to prove `subg`. -/
def SubG (G H : Graph) : Prop :=
  (∀ n, hasNode G n = true → hasNode H n = true) ∧
  (∀ u v, hasEdge G u v = true → hasEdge H u v = true)

theorem subG_refl (G : Graph) : SubG G G :=
  ⟨fun _ h => h, fun _ _ h => h⟩

theorem subG_trans {G H K : Graph} (h1 : SubG G H) (h2 : SubG H K) : SubG G K :=
  ⟨fun n h => h2.1 n (h1.1 n h), fun u v h => h2.2 u v (h1.2 u v h)⟩

theorem hasNode_addNodeRaw {G : Graph} {m n : String} (h : hasNode G n = true) :
    hasNode (addNodeRaw G m) n = true := by
  unfold addNodeRaw
  split
  · exact h
  · simp only [hasNode, List.any_eq_true] at h ⊢
    obtain ⟨p, hp, hpe⟩ := h
    exact ⟨p, List.mem_append_left _ hp, hpe⟩

theorem hasNode_addNode {G : Graph} {m n : String} {a : NodeAttrs}
    (h : hasNode G n = true) : hasNode (addNode G m a) n = true := by
  unfold addNode
  split
  · simp only [hasNode, List.any_eq_true] at h ⊢
    obtain ⟨p, hp, hpe⟩ := h
    refine ⟨if p.1 == m then (m, some a) else p, List.mem_map.mpr ⟨p, hp, rfl⟩, ?_⟩
    by_cases hpm : (p.1 == m) = true
    · have hme : p.1 = m := beq_iff_eq.mp hpm
      rw [if_pos hpm]
      show (m == n) = true
      rw [← hme]
      exact hpe
    · rw [if_neg hpm]
      exact hpe
  · simp only [hasNode, List.any_eq_true] at h ⊢
    obtain ⟨p, hp, hpe⟩ := h
    exact ⟨p, List.mem_append_left _ hp, hpe⟩

theorem hasEdge_addNodeRaw {G : Graph} {m u v : String} (h : hasEdge G u v = true) :
    hasEdge (addNodeRaw G m) u v = true := by
  unfold addNodeRaw
  split
  · exact h
  · exact h

theorem hasEdge_addNode {G : Graph} {m u v : String} {a : NodeAttrs}
    (h : hasEdge G u v = true) : hasEdge (addNode G m a) u v = true := by
  unfold addNode
  split
  · exact h
  · exact h

theorem hasNode_addEdge {G : Graph} {u v n : String} {a : EdgeAttrs}
    (h : hasNode G n = true) : hasNode (addEdge G u v a) n = true := by
  unfold addEdge
  dsimp only
  have h1 : hasNode (addNodeRaw (addNodeRaw G u) v) n = true :=
    hasNode_addNodeRaw (hasNode_addNodeRaw h)
  split
  · exact h1
  · exact h1

theorem hasEdge_addEdge {G : Graph} {u v x y : String} {a : EdgeAttrs}
    (h : hasEdge G x y = true) : hasEdge (addEdge G u v a) x y = true := by
  unfold addEdge
  dsimp only
  have h1 : hasEdge (addNodeRaw (addNodeRaw G u) v) x y = true :=
    hasEdge_addNodeRaw (hasEdge_addNodeRaw h)
  split
  · simp only [hasEdge, List.any_eq_true] at h1 ⊢
    obtain ⟨e, he', hee⟩ := h1
    refine ⟨_, List.mem_map.mpr ⟨e, he', rfl⟩, ?_⟩
    by_cases hm : edgeMatches u v e = true
    · rw [if_pos hm]
      exact hee
    · rw [if_neg hm]
      exact hee
  · simp only [hasEdge, List.any_eq_true] at h1 ⊢
    obtain ⟨e, he', hee⟩ := h1
    exact ⟨e, List.mem_append_left _ he', hee⟩

theorem subG_applyOp (G : Graph) (op : GOp) : SubG G (applyOp G op) := by
  cases op with
  | node n a => exact ⟨fun _ h => hasNode_addNode h, fun _ _ h => hasEdge_addNode h⟩
  | edge u v a => exact ⟨fun _ h => hasNode_addEdge h, fun _ _ h => hasEdge_addEdge h⟩

theorem subG_applyOps (G : Graph) (ops : List GOp) : SubG G (applyOps G ops) := by
  induction ops generalizing G with
  | nil => exact subG_refl G
  | cons op ops ih =>
    exact subG_trans (subG_applyOp G op) (ih (applyOp G op))

theorem subg_of_SubG {G H : Graph} (s : SubG G H) : subg G H = true := by
  unfold subg
  rw [Bool.and_eq_true]
  constructor
  · rw [List.all_eq_true]
    intro n hn
    apply s.1
    simp only [nodeIds, List.mem_map] at hn
    obtain ⟨p, hp, rfl⟩ := hn
    simp only [hasNode, List.any_eq_true]
    exact ⟨p, hp, by simp⟩
  · rw [List.all_eq_true]
    intro e he
    apply s.2
    simp only [hasEdge, List.any_eq_true]
    exact ⟨e, he, by simp [edgeMatches]⟩

/-- Inversion of a successful `Except` bind. -/
theorem exc_bind_ok {ε α β : Type} {e : Except ε α} {f : α → Except ε β} {b : β} :
    (e >>= f) = .ok b ↔ ∃ a, e = .ok a ∧ f a = .ok b := by
  cases e <;> simp [Bind.bind, Except.bind]

/-- Congruence for `Except` bind. -/
theorem exc_bind_congr {ε α β : Type} {e : Except ε α} {f g : α → Except ε β}
    (h : ∀ a, f a = g a) : (e >>= f) = (e >>= g) := by
  cases e <;> simp [Bind.bind, Except.bind, h]

theorem exc_ok_bind {ε α β : Type} (a : α) (f : α → Except ε β) :
    ((Except.ok a : Except ε α) >>= f) = f a := rfl

theorem subG_crossConnect (G : Graph) (rd : PyDict) : SubG G (crossConnect G rd) := by
  unfold crossConnect
  dsimp only
  exact subG_trans (subG_applyOps _ _)
    (subG_trans (subG_applyOps _ _)
      (subG_trans (subG_applyOps _ _)
        (subG_trans (subG_applyOps _ _) (subG_applyOps _ _))))

theorem subG_initial_expanded {p : PyDict} {x : TableInput} {G1 G2 : Graph}
    (h1 : create_initial_knowledge_graph p = .ok G1)
    (h2 : create_expanded_knowledge_graph p x = .ok G2) : SubG G1 G2 := by
  unfold create_expanded_knowledge_graph at h2
  rw [h1, exc_ok_bind] at h2
  obtain ⟨ops, _, h2⟩ := exc_bind_ok.mp h2
  have hG : applyOps G1 ops = G2 := Except.ok.inj h2
  rw [← hG]
  exact subG_applyOps _ _

theorem subG_expanded_comprehensive {p : PyDict} {x y : TableInput} {c : Option Ctx}
    {G2 G3 : Graph}
    (h2 : create_expanded_knowledge_graph p x = .ok G2)
    (h3 : create_comprehensive_knowledge_graph p x y c = .ok G3) : SubG G2 G3 := by
  unfold create_comprehensive_knowledge_graph at h3
  rw [h2, exc_ok_bind] at h3
  obtain ⟨ops, _, h3⟩ := exc_bind_ok.mp h3
  have hG : crossConnect (applyOps G2 ops) (asRecord y) = G3 := Except.ok.inj h3
  rw [← hG]
  exact subG_trans (subG_applyOps _ _) (subG_crossConnect _ _)

/-! ## File-store lemmas -/

theorem fs_lookup_write_map {p q : String} {d : FileData} (hpq : (p == q) = false) :
    ∀ l : FS, (l.map (fun e => if e.1 == q then (q, d) else e)).lookup p = l.lookup p := by
  intro l
  induction l with
  | nil => rfl
  | cons e t ih =>
    obtain ⟨k, v⟩ := e
    by_cases hq : (k == q) = true
    · have he : k = q := beq_iff_eq.mp hq
      subst he
      simp only [List.map_cons, if_pos hq, List.lookup_cons, hpq, ih]
    · simp only [List.map_cons, if_neg hq, List.lookup_cons, ih]

theorem fs_lookup_append_one {p q : String} {d : FileData} (hpq : (p == q) = false) :
    ∀ l : FS, (l ++ [(q, d)]).lookup p = l.lookup p := by
  intro l
  induction l with
  | nil => simp [List.lookup_cons, hpq]
  | cons e t ih =>
    obtain ⟨k, v⟩ := e
    simp only [List.cons_append, List.lookup_cons, ih]

theorem fsGet_write_ne {fs : FS} {p q : String} {d : FileData} (h : p ≠ q) :
    fsGet (fsWrite fs q d) p = fsGet fs p := by
  have hpq : (p == q) = false := beq_eq_false_iff_ne.mpr h
  unfold fsWrite fsGet
  split
  · exact fs_lookup_write_map hpq fs
  · exact fs_lookup_append_one hpq fs

theorem fs_lookup_write_map_self (q : String) (d : FileData) :
    ∀ l : FS, fsExists l q = true →
      (l.map (fun e => if e.1 == q then (q, d) else e)).lookup q = some d := by
  intro l hex
  induction l with
  | nil => simp [fsExists] at hex
  | cons e t ih =>
    obtain ⟨k, v⟩ := e
    by_cases hq : (k == q) = true
    · have he : k = q := beq_iff_eq.mp hq
      subst he
      simp [List.lookup_cons]
    · have hk : k ≠ q := by
        intro hh
        exact hq (beq_iff_eq.mpr hh)
      have hqk : (q == k) = false := beq_eq_false_iff_ne.mpr (Ne.symm hk)
      simp only [List.map_cons, if_neg hq, List.lookup_cons, hqk]
      apply ih
      simpa [fsExists, hq] using hex

theorem fs_lookup_append_one_self (q : String) (d : FileData) :
    ∀ l : FS, fsExists l q = false → (l ++ [(q, d)]).lookup q = some d := by
  intro l hex
  induction l with
  | nil => simp [List.lookup_cons]
  | cons e t ih =>
    obtain ⟨k, v⟩ := e
    simp only [fsExists, List.any_cons, Bool.or_eq_false_iff] at hex
    have hqk : (q == k) = false := by
      rw [beq_eq_false_iff_ne]
      intro hh
      rw [beq_eq_false_iff_ne] at hex
      exact hex.1 hh.symm
    simp only [List.cons_append, List.lookup_cons, hqk]
    exact ih (by simpa [fsExists] using hex.2)

theorem fsGet_write_self (fs : FS) (q : String) (d : FileData) :
    fsGet (fsWrite fs q d) q = some d := by
  unfold fsWrite fsGet
  split
  case isTrue hex => exact fs_lookup_write_map_self q d fs hex
  case isFalse hex => exact fs_lookup_append_one_self q d fs (by simpa using hex)

theorem fsExists_eq_isSome (fs : FS) (p : String) : fsExists fs p = (fsGet fs p).isSome := by
  induction fs with
  | nil => rfl
  | cons e t ih =>
    obtain ⟨k, v⟩ := e
    by_cases h : k = p
    · subst h
      simp [fsExists, fsGet, List.lookup_cons]
    · have h1 : (k == p) = false := beq_eq_false_iff_ne.mpr h
      have h2 : (p == k) = false := beq_eq_false_iff_ne.mpr (Ne.symm h)
      simp only [fsExists, fsGet, List.any_cons, List.lookup_cons, h1, h2,
        Bool.false_or] at ih ⊢
      exact ih

theorem fsExists_write_self (fs : FS) (q : String) (d : FileData) :
    fsExists (fsWrite fs q d) q = true := by
  rw [fsExists_eq_isSome, fsGet_write_self]
  rfl

theorem fsExists_write_ne {fs : FS} {p q : String} {d : FileData} (h : p ≠ q) :
    fsExists (fsWrite fs q d) p = fsExists fs p := by
  rw [fsExists_eq_isSome, fsGet_write_ne h, ← fsExists_eq_isSome]

theorem fsExists_write_mono {fs : FS} {p q : String} {d : FileData}
    (h : fsExists fs p = true) : fsExists (fsWrite fs q d) p = true := by
  by_cases hpq : p = q
  · subst hpq
    exact fsExists_write_self fs p d
  · rw [fsExists_write_ne hpq]
    exact h

theorem writeArch_get_ne (fs : FS) (a a' : Archetype) (νf : FinNoise) (νr : RiskNoise)
    (hne : a ≠ a') (f : String) (hf : f ∈ componentFiles) :
    fsGet (writeArchetype fs a' νf νr) (filePath a f) = fsGet fs (filePath a f) := by
  cases a <;> cases a' <;> first
  | exact absurd rfl hne
  | (fin_cases hf <;>
      (simp only [writeArchetype]
       repeat rw [fsGet_write_ne (by decide)]))

theorem check_writeArch_other (fs : FS) (a a' : Archetype) (νf : FinNoise) (νr : RiskNoise)
    (hne : a ≠ a') :
    check_data_exists (writeArchetype fs a' νf νr) a = check_data_exists fs a := by
  cases a <;> cases a' <;> first
  | exact absurd rfl hne
  | (simp only [check_data_exists, basicFiles, List.all_cons, List.all_nil, writeArchetype]
     repeat rw [fsExists_write_ne (by decide)])

theorem writeArch_all_exist (fs : FS) (a : Archetype) (νf : FinNoise) (νr : RiskNoise)
    (f : String) (hf : f ∈ componentFiles) :
    fsExists (writeArchetype fs a νf νr) (filePath a f) = true := by
  cases a <;> fin_cases hf <;>
    (simp only [writeArchetype]
     repeat rw [fsExists_write_ne (by decide)]) <;>
    exact fsExists_write_self _ _ _

theorem fsExists_writeArch_mono {fs : FS} {p : String} {a : Archetype}
    {νf : FinNoise} {νr : RiskNoise} (h : fsExists fs p = true) :
    fsExists (writeArchetype fs a νf νr) p = true := by
  simp only [writeArchetype]
  repeat apply fsExists_write_mono
  exact h

theorem genStep_skip {νf : Archetype → FinNoise} {νr : Archetype → RiskNoise} {fs : FS}
    {a : Archetype} (h : check_data_exists fs a = true) : genStep νf νr fs a = fs := by
  unfold genStep
  rw [if_pos h]

theorem genStep_write {νf : Archetype → FinNoise} {νr : Archetype → RiskNoise} {fs : FS}
    {a : Archetype} (h : check_data_exists fs a = false) :
    genStep νf νr fs a = writeArchetype fs a (νf a) (νr a) := by
  unfold genStep
  rw [if_neg (by simp [h])]

theorem fsExists_genStep_mono {νf : Archetype → FinNoise} {νr : Archetype → RiskNoise}
    {fs : FS} {p : String} {a : Archetype} (h : fsExists fs p = true) :
    fsExists (genStep νf νr fs a) p = true := by
  unfold genStep
  split
  · exact h
  · exact fsExists_writeArch_mono h

theorem check_genStep_other {νf : Archetype → FinNoise} {νr : Archetype → RiskNoise}
    {fs : FS} {b a : Archetype} (hne : b ≠ a) :
    check_data_exists (genStep νf νr fs a) b = check_data_exists fs b := by
  unfold genStep
  split
  · rfl
  · exact check_writeArch_other fs b a _ _ hne

theorem genStep_get_other {νf : Archetype → FinNoise} {νr : Archetype → RiskNoise}
    {fs : FS} {b a : Archetype} (hne : b ≠ a) {f : String} (hf : f ∈ componentFiles) :
    fsGet (genStep νf νr fs a) (filePath b f) = fsGet fs (filePath b f) := by
  unfold genStep
  split
  · rfl
  · exact writeArch_get_ne fs b a _ _ hne f hf

theorem fsExists_genStep_new {νf : Archetype → FinNoise} {νr : Archetype → RiskNoise}
    {fs : FS} {a : Archetype} (h : check_data_exists fs a = false) {f : String}
    (hf : f ∈ componentFiles) :
    fsExists (genStep νf νr fs a) (filePath a f) = true := by
  rw [genStep_write h]
  exact writeArch_all_exist fs a _ _ f hf

theorem generate_all_data_eq (fs : FS) (νf : Archetype → FinNoise)
    (νr : Archetype → RiskNoise) :
    generate_all_data fs νf νr =
      genStep νf νr (genStep νf νr (genStep νf νr fs .strong) .unclear) .challenged := rfl

/-! ## Claim theorems -/

/-- C1: for every archetype and every choice of random noise, every
`risk_score` and `confidence_score` of the generated risk series lies in
[0.05, 0.95], and every `debt_ratio` of the generated financial series lies
in [0.1, 0.9], after trend and noise are applied. -/
theorem generated_scores_clamped :
    (∀ (a : Archetype) (ν : RiskNoise) (r : PyDict), r ∈ generate_risk_scores a ν →
      ∀ q : ℚ, r.lookup "risk_score" = some (.num q) → 0.05 ≤ q ∧ q ≤ 0.95) ∧
    (∀ (a : Archetype) (ν : RiskNoise) (r : PyDict), r ∈ generate_risk_scores a ν →
      ∀ q : ℚ, r.lookup "confidence_score" = some (.num q) → 0.05 ≤ q ∧ q ≤ 0.95) ∧
    (∀ (a : Archetype) (ν : FinNoise) (r : PyDict), r ∈ generate_financial_data a ν →
      ∀ q : ℚ, r.lookup "debt_ratio" = some (.num q) → 0.1 ≤ q ∧ q ≤ 0.9) := by
  refine ⟨?_, ?_, ?_⟩
  · intro a ν r hr q hq
    obtain ⟨i, _, rfl⟩ := List.mem_map.mp hr
    rw [show (riskRecordAt a ν i).lookup "risk_score" = some (.num (riskScoreAt a ν i)) from rfl]
      at hq
    simp only [Option.some.injEq, PyVal.num.injEq] at hq
    subst hq
    unfold riskScoreAt clamp0595
    exact ⟨le_min (by norm_num) (le_max_left _ _), min_le_left _ _⟩
  · intro a ν r hr q hq
    obtain ⟨i, _, rfl⟩ := List.mem_map.mp hr
    rw [show (riskRecordAt a ν i).lookup "confidence_score" =
        some (.num (confidenceScoreAt a ν i)) from rfl] at hq
    simp only [Option.some.injEq, PyVal.num.injEq] at hq
    subst hq
    unfold confidenceScoreAt
    refine ⟨le_min (by norm_num) (le_trans (by norm_num) (le_max_left _ _)), min_le_left _ _⟩
  · intro a ν r hr q hq
    obtain ⟨i, _, rfl⟩ := List.mem_map.mp hr
    rw [show (finRecordAt a ν i).lookup "debt_ratio" = some (.num (debtRatioAt a ν i)) from rfl]
      at hq
    simp only [Option.some.injEq, PyVal.num.injEq] at hq
    subst hq
    unfold debtRatioAt
    exact ⟨le_min (by norm_num) (le_max_left _ _), min_le_left _ _⟩

/-- Witness for C1 at a concrete record of the generated data. -/
theorem generated_scores_clamped_witness :
    0.05 ≤ riskScoreAt .strong constRiskNoise 0 ∧ riskScoreAt .strong constRiskNoise 0 ≤ 0.95 :=
  generated_scores_clamped.1 .strong constRiskNoise (riskRecordAt .strong constRiskNoise 0)
    (List.mem_map.mpr ⟨0, by decide, rfl⟩) _ rfl

/-- C5: for every archetype and every choice of random noise, the generated
financial and risk series each have exactly 12 records, hence equal length
and a shared month index. -/
theorem series_have_twelve_records :
    ∀ (a : Archetype) (νf : FinNoise) (νr : RiskNoise),
      (generate_financial_data a νf).length = 12 ∧
      (generate_risk_scores a νr).length = 12 ∧
      (generate_financial_data a νf).length = (generate_risk_scores a νr).length := by
  intro a νf νr
  refine ⟨?_, ?_, ?_⟩ <;>
    simp [generate_financial_data, generate_risk_scores, MONTHS]

/-- C4: whenever the graph-construction body raises, `get_graph_for_stage`
returns the single-node fallback graph whose node's tooltip is the
non-empty string "Error generating graph: " followed by the error text. -/
theorem graph_error_fallback :
    ∀ (b : Bundle) (stage : String) (m : Option (List (String × ℤ))) (e : String),
      get_graph_for_stage_core b stage m = .error e →
      get_graph_for_stage b stage m = errorGraph e ∧
      (errorGraph e).nodes.length = 1 ∧
      nodeTitle (errorGraph e) "Error" = some ("Error generating graph: " ++ e) ∧
      ("Error generating graph: " ++ e).length ≠ 0 := by
  intro b stage m e h
  refine ⟨?_, rfl, rfl, ?_⟩
  · unfold get_graph_for_stage
    rw [h]
  · have hlen : ("Error generating graph: " ++ e).length =
        "Error generating graph: ".length + e.length := by
      simp [String.length_append]
    rw [hlen]
    have : "Error generating graph: ".length = 24 := by decide
    omega

/-- Witness for C4: a bundle whose `company_profile` key is missing makes
the body raise `KeyError`, and the orchestrator degrades to the diagnostic
single-node graph. -/
theorem graph_error_fallback_witness :
    get_graph_for_stage ⟨none, some [], some [], none⟩ "Initial Application" none =
      errorGraph "'company_profile'" ∧
    (errorGraph "'company_profile'").nodes.length = 1 ∧
    nodeTitle (errorGraph "'company_profile'") "Error" =
      some ("Error generating graph: " ++ "'company_profile'") ∧
    ("Error generating graph: " ++ "'company_profile'").length ≠ 0 :=
  graph_error_fallback ⟨none, some [], some [], none⟩ "Initial Application" none
    "'company_profile'" rfl

/-- C2 (amended): growth is monotonic from "Initial Application" to
"Information Gathering", and at any fixed financial/risk record the three
builders are additive (initial ⊆ expanded ⊆ comprehensive); across later
stages the default mapping changes the month index and the leaf node ids
embed month-specific formatted values, so stage-over-stage monotonicity
fails (see the counterexample). -/
theorem stage_growth_additive_parts :
    (∀ (b : Bundle) (m : Option (List (String × ℤ))) (G1 G2 : Graph),
      get_graph_for_stage_core b "Initial Application" m = .ok G1 →
      get_graph_for_stage_core b "Information Gathering" m = .ok G2 →
      subg G1 G2 = true) ∧
    (∀ (p : PyDict) (x : TableInput) (G1 G2 : Graph),
      create_initial_knowledge_graph p = .ok G1 →
      create_expanded_knowledge_graph p x = .ok G2 → subg G1 G2 = true) ∧
    (∀ (p : PyDict) (x y : TableInput) (c : Option Ctx) (G2 G3 : Graph),
      create_expanded_knowledge_graph p x = .ok G2 →
      create_comprehensive_knowledge_graph p x y c = .ok G3 → subg G2 G3 = true) := by
  refine ⟨?_, ?_, ?_⟩
  · intro b m G1 G2 h1 h2
    unfold get_graph_for_stage_core at h1 h2
    obtain ⟨p, hp, h1⟩ := exc_bind_ok.mp h1
    obtain ⟨fin, hfin, h1⟩ := exc_bind_ok.mp h1
    obtain ⟨risk, hrisk, h1⟩ := exc_bind_ok.mp h1
    rw [hp, exc_ok_bind, hfin, exc_ok_bind, hrisk, exc_ok_bind] at h2
    simp only [show (("Initial Application" : String) == "Initial Application") = true from rfl,
      if_true] at h1
    simp only [show (("Information Gathering" : String) == "Initial Application") = false
        from rfl,
      show (("Information Gathering" : String) == "Information Gathering") = true from rfl,
      Bool.false_eq_true, if_false, if_true] at h2
    obtain ⟨row, _, h2⟩ := exc_bind_ok.mp h2
    exact subg_of_SubG (subG_initial_expanded h1 h2)
  · intro p x G1 G2 h1 h2
    exact subg_of_SubG (subG_initial_expanded h1 h2)
  · intro p x y c G2 G3 h2 h3
    exact subg_of_SubG (subG_expanded_comprehensive h2 h3)

set_option maxRecDepth 10000 in
set_option maxHeartbeats 2000000 in
/-- Witness for C2 (amended) on a generated unclear-applicant bundle: the
"Initial Application" stage graph is a subgraph of the "Information
Gathering" stage graph. -/
theorem stage_growth_additive_parts_witness :
    subg (get_graph_for_stage (demoBundle .unclear) "Initial Application" none)
      (get_graph_for_stage (demoBundle .unclear) "Information Gathering" none) = true :=
  stage_growth_additive_parts.1 (demoBundle .unclear) none _ _
    (by with_unfolding_all rfl) (by with_unfolding_all rfl)

set_option maxRecDepth 10000 in
set_option maxHeartbeats 4000000 in
/-- C2 counterexample: on the generated unclear-applicant bundle, the
"Risk Assessment" stage graph (month index 5) is not a superset of the
preceding "Information Gathering" stage graph (month index 2): the leaf
node "Revenue: $431,340" of the earlier stage is absent from the later
one. -/
theorem stage_growth_not_monotonic :
    subg (get_graph_for_stage (demoBundle .unclear) "Information Gathering" none)
      (get_graph_for_stage (demoBundle .unclear) "Risk Assessment" none) = false ∧
    hasNode (get_graph_for_stage (demoBundle .unclear) "Information Gathering" none)
      "Revenue: $431,340" = true ∧
    hasNode (get_graph_for_stage (demoBundle .unclear) "Risk Assessment" none)
      "Revenue: $431,340" = false := by
  refine ⟨?_, ?_, ?_⟩ <;> with_unfolding_all decide

/-- C3: when the stage's mapped month index is at least the length of a
non-empty financial series, `get_graph_for_stage` does not raise and
returns exactly the graph it returns when the stage is instead mapped to
the last valid index (length - 1). -/
theorem out_of_range_index_clamped :
    ∀ (b : Bundle) (stage : String) (m : Option (List (String × ℤ))) (fin : List PyDict),
      b.financial_data = some fin → fin ≠ [] →
      ((m.getD default_stage_to_index).lookup stage).getD 0 ≥ (fin.length : ℤ) →
      get_graph_for_stage b stage m =
        get_graph_for_stage b stage
          (some ((stage, (fin.length : ℤ) - 1) :: m.getD default_stage_to_index)) := by
  intro b stage m fin hfin hne hidx
  unfold get_graph_for_stage
  suffices h : get_graph_for_stage_core b stage m =
      get_graph_for_stage_core b stage
        (some ((stage, (fin.length : ℤ) - 1) :: m.getD default_stage_to_index)) by
    rw [h]
  unfold get_graph_for_stage_core
  rw [hfin]
  apply exc_bind_congr
  intro p
  rw [show bgetE (some fin) "financial_data" = Except.ok fin from rfl, exc_ok_bind, exc_ok_bind]
  apply exc_bind_congr
  intro risk
  dsimp only
  rw [if_pos hidx]
  simp only [Option.getD_some, List.lookup, beq_self_eq_true, ite_self]

set_option maxRecDepth 10000 in
set_option maxHeartbeats 4000000 in
/-- Witness for C3 on the generated strong-applicant bundle: a custom
mapping sending "Monitoring Phase" to 99 (beyond the 12-month series)
yields the same graph as mapping it to the last valid index. -/
theorem out_of_range_index_clamped_witness :
    get_graph_for_stage (demoBundle .strong) "Monitoring Phase"
        (some [("Monitoring Phase", 99)]) =
      get_graph_for_stage (demoBundle .strong) "Monitoring Phase"
        (some (("Monitoring Phase",
            ((generate_financial_data .strong constFinNoise).length : ℤ) - 1) ::
          (some [("Monitoring Phase", (99 : ℤ))]).getD default_stage_to_index)) :=
  out_of_range_index_clamped (demoBundle .strong) "Monitoring Phase"
    (some [("Monitoring Phase", 99)]) (generate_financial_data .strong constFinNoise) rfl
    (by with_unfolding_all decide) (by with_unfolding_all decide)

/-- C10: any stage name other than "Initial Application" and "Information
Gathering" is dispatched (without rejection) to the comprehensive
risk-and-context graph at its looked-up month index, and a name outside the
five-label vocabulary falls back to month index 0. -/
theorem later_stages_build_comprehensive :
    ∀ (b : Bundle) (stage : String),
      stage ≠ "Initial Application" → stage ≠ "Information Gathering" →
      (get_graph_for_stage b stage none =
        get_graph_for_stage b "Risk Assessment"
          (some [("Risk Assessment", (default_stage_to_index.lookup stage).getD 0)]) ∧
       (stage ∉ ["Initial Application", "Information Gathering", "Risk Assessment",
          "Decision Point", "Monitoring Phase"] →
         (default_stage_to_index.lookup stage).getD 0 = 0)) := by
  intro b stage h1 h2
  have e1 : (stage == "Initial Application") = false := beq_eq_false_iff_ne.mpr h1
  have e2 : (stage == "Information Gathering") = false := beq_eq_false_iff_ne.mpr h2
  constructor
  · unfold get_graph_for_stage
    suffices h : get_graph_for_stage_core b stage none =
        get_graph_for_stage_core b "Risk Assessment"
          (some [("Risk Assessment", (default_stage_to_index.lookup stage).getD 0)]) by
      rw [h]
    unfold get_graph_for_stage_core
    apply exc_bind_congr
    intro p
    apply exc_bind_congr
    intro fin
    apply exc_bind_congr
    intro risk
    dsimp only
    rw [e1, e2,
      show (("Risk Assessment" : String) == "Initial Application") = false from rfl,
      show (("Risk Assessment" : String) == "Information Gathering") = false from rfl]
    simp only [Option.getD_some, List.lookup, beq_self_eq_true, Bool.false_eq_true, if_false]
  · intro hm
    simp only [List.mem_cons, List.not_mem_nil, or_false, not_or] at hm
    obtain ⟨n1, n2, n3, n4, n5⟩ := hm
    simp [default_stage_to_index, List.lookup, beq_eq_false_iff_ne.mpr n1,
      beq_eq_false_iff_ne.mpr n2, beq_eq_false_iff_ne.mpr n3,
      beq_eq_false_iff_ne.mpr n4, beq_eq_false_iff_ne.mpr n5]

set_option maxRecDepth 10000 in
set_option maxHeartbeats 4000000 in
/-- Witness for C10 on the generated strong-applicant bundle with the
unknown stage name "Bogus". -/
theorem later_stages_build_comprehensive_witness :
    (get_graph_for_stage (demoBundle .strong) "Bogus" none =
      get_graph_for_stage (demoBundle .strong) "Risk Assessment"
        (some [("Risk Assessment", (default_stage_to_index.lookup "Bogus").getD 0)]) ∧
     ("Bogus" ∉ ["Initial Application", "Information Gathering", "Risk Assessment",
        "Decision Point", "Monitoring Phase"] →
       (default_stage_to_index.lookup "Bogus").getD 0 = 0)) :=
  later_stages_build_comprehensive (demoBundle .strong) "Bogus" (by decide) (by decide)

/-- C6: for every archetype whose persisted data already exists, re-invoking
the generator writes nothing: globally, if all three archetypes are
complete the store is returned unchanged, and per archetype, a complete
archetype's files are untouched whatever happens to the others. -/
theorem existing_data_generation_noop :
    (∀ (fs : FS) (νf : Archetype → FinNoise) (νr : Archetype → RiskNoise),
      check_data_exists fs .strong = true → check_data_exists fs .unclear = true →
      check_data_exists fs .challenged = true → generate_all_data fs νf νr = fs) ∧
    (∀ (fs : FS) (νf : Archetype → FinNoise) (νr : Archetype → RiskNoise) (a : Archetype),
      check_data_exists fs a = true →
      ∀ f ∈ componentFiles,
        fsGet (generate_all_data fs νf νr) (filePath a f) = fsGet fs (filePath a f)) := by
  constructor
  · intro fs νf νr h1 h2 h3
    rw [generate_all_data_eq, genStep_skip h1, genStep_skip h2, genStep_skip h3]
  · intro fs νf νr a h f hf
    rw [generate_all_data_eq]
    cases a with
    | strong =>
      rw [genStep_get_other (by decide) hf, genStep_get_other (by decide) hf, genStep_skip h]
    | unclear =>
      rw [genStep_get_other (by decide) hf]
      have h2 : check_data_exists (genStep νf νr fs .strong) .unclear = true := by
        rw [check_genStep_other (by decide)]
        exact h
      rw [genStep_skip h2, genStep_get_other (by decide) hf]
    | challenged =>
      have h3 : check_data_exists (genStep νf νr (genStep νf νr fs .strong) .unclear)
          .challenged = true := by
        rw [check_genStep_other (by decide), check_genStep_other (by decide)]
        exact h
      rw [genStep_skip h3, genStep_get_other (by decide) hf, genStep_get_other (by decide) hf]

set_option maxRecDepth 10000 in
set_option maxHeartbeats 4000000 in
/-- Witness for C6: after one full generation into an empty store, invoking
the generator again returns the store unchanged. -/
theorem existing_data_generation_noop_witness :
    generate_all_data
        (generate_all_data [] (fun _ => constFinNoise) (fun _ => constRiskNoise))
        (fun _ => constFinNoise) (fun _ => constRiskNoise) =
      generate_all_data [] (fun _ => constFinNoise) (fun _ => constRiskNoise) :=
  existing_data_generation_noop.1 _ _ _ (by with_unfolding_all decide)
    (by with_unfolding_all decide) (by with_unfolding_all decide)

/-- C8 (amended): a missing file among the five checked by
`check_data_exists` triggers regeneration of the archetype's whole dataset,
after which all nine component files exist; a missing non-checked file does
not trigger regeneration (see the counterexample). -/
theorem missing_basic_file_triggers_regeneration :
    ∀ (fs : FS) (νf : Archetype → FinNoise) (νr : Archetype → RiskNoise) (a : Archetype),
      check_data_exists fs a = false →
      ∀ f ∈ componentFiles, fsExists (generate_all_data fs νf νr) (filePath a f) = true := by
  intro fs νf νr a h f hf
  rw [generate_all_data_eq]
  cases a with
  | strong =>
    apply fsExists_genStep_mono
    apply fsExists_genStep_mono
    exact fsExists_genStep_new h hf
  | unclear =>
    apply fsExists_genStep_mono
    apply fsExists_genStep_new
    · rw [check_genStep_other (by decide)]
      exact h
    · exact hf
  | challenged =>
    apply fsExists_genStep_new
    · rw [check_genStep_other (by decide), check_genStep_other (by decide)]
      exact h
    · exact hf

set_option maxRecDepth 10000 in
set_option maxHeartbeats 4000000 in
/-- Witness for C8 (amended): generating into an empty store creates every
component file of the strong archetype. -/
theorem missing_basic_file_triggers_regeneration_witness :
    fsExists (generate_all_data [] (fun _ => constFinNoise) (fun _ => constRiskNoise))
      (filePath .strong "knowledge_graphs.json") = true :=
  missing_basic_file_triggers_regeneration [] _ _ .strong (by with_unfolding_all decide)
    "knowledge_graphs.json" (by decide)

set_option maxRecDepth 10000 in
set_option maxHeartbeats 4000000 in
/-- C8 counterexample: starting from a fully generated store with only the
non-checked file `knowledge_graphs.json` of the strong archetype deleted,
re-invoking the generator does not regenerate it — the five checked files
still exist, so generation is skipped and the file stays missing. -/
theorem missing_optional_file_not_regenerated :
    fsExists
      (generate_all_data
        (fsRemove (generate_all_data [] (fun _ => constFinNoise) (fun _ => constRiskNoise))
          (filePath .strong "knowledge_graphs.json"))
        (fun _ => constFinNoise) (fun _ => constRiskNoise))
      (filePath .strong "knowledge_graphs.json") = false := by
  with_unfolding_all decide

theorem mem_nodeIds_of_hasNode {G : Graph} {n : String} (h : hasNode G n = true) :
    n ∈ nodeIds G := by
  simp only [hasNode, List.any_eq_true] at h
  obtain ⟨p, hp, hpe⟩ := h
  have hpn : p.1 = n := beq_iff_eq.mp hpe
  subst hpn
  exact List.mem_map.mpr ⟨p, hp, rfl⟩

set_option maxRecDepth 10000 in
set_option maxHeartbeats 4000000 in
/-- C7 counterexample: the orchestrator's Information-Gathering graph for
the unclear applicant contains no node mentioning "Others" at all, so the
claimed strict width comparison against the "Others" customer node is false
there (that node, and percentage-dependent widths, exist only in the
separate customer-concentration demo graph). -/
theorem no_others_node_in_stage_graph :
    ¬ ∃ (othersId : String) (w1 w2 : ℚ),
      hasNode (get_graph_for_stage (demoBundle .unclear) "Information Gathering" none)
        othersId = true ∧
      strContains othersId "Others" = true ∧
      edgeWidth (get_graph_for_stage (demoBundle .unclear) "Information Gathering" none)
        "Customers" "Concentration: 28%" = some w1 ∧
      edgeWidth (get_graph_for_stage (demoBundle .unclear) "Information Gathering" none)
        "Customers" othersId = some w2 ∧
      w2 < w1 := by
  rintro ⟨oid, w1, w2, hnode, hcont, hw1, hw2, hlt⟩
  have hall : (nodeIds (get_graph_for_stage (demoBundle .unclear) "Information Gathering"
      none)).all (fun n => !(strContains n "Others")) = true := by
    with_unfolding_all decide
  have hmem := mem_nodeIds_of_hasNode hnode
  have hfalse := List.all_eq_true.mp hall oid hmem
  rw [hcont] at hfalse
  simp at hfalse

set_option maxRecDepth 10000 in
set_option maxHeartbeats 4000000 in
/-- C7 (amended): the Information-Gathering graph for the unclear applicant
does contain the leaf "Concentration: 28%" whose tooltip encodes the 28%
concentration, attached with the constant width 1; the percentage-dependent
widths and the "Others" comparison hold in the standalone
customer-concentration demo graph, where width = max(1, pct/10) gives the
42% customer a strictly wider edge than the 16% "Others" node. -/
theorem concentration_node_and_demo_widths :
    hasNode (get_graph_for_stage (demoBundle .unclear) "Information Gathering" none)
      "Concentration: 28%" = true ∧
    nodeTitle (get_graph_for_stage (demoBundle .unclear) "Information Gathering" none)
      "Concentration: 28%" = some "Largest Customer: 28% of revenue" ∧
    edgeWidth (get_graph_for_stage (demoBundle .unclear) "Information Gathering" none)
      "Customers" "Concentration: 28%" = some 1 ∧
    edgeWidth create_customer_concentration_graph "Customer Base" "Customer A: 42%" =
      some (ccEdgeWidth 42) ∧
    edgeWidth create_customer_concentration_graph "Customer Base" "Others: 16%" =
      some (ccEdgeWidth 16) ∧
    ccEdgeWidth 16 < ccEdgeWidth 42 := by
  refine ⟨?_, ?_, ?_, ?_, ?_, ?_⟩ <;> with_unfolding_all decide

/-- C9: the three graph builders are pure deterministic functions of their
inputs: the state-passing translation leaves all inputs unchanged and a
repeated invocation on the returned state produces the same graph. -/
theorem graph_builders_pure :
    ∀ (p : PyDict) (fin risk : TableInput) (ctx : Option Ctx),
      (create_comprehensive_knowledge_graphS p fin risk ctx =
        ((create_comprehensive_knowledge_graphS
            (create_comprehensive_knowledge_graphS p fin risk ctx).2.1
            (create_comprehensive_knowledge_graphS p fin risk ctx).2.2.1
            (create_comprehensive_knowledge_graphS p fin risk ctx).2.2.2.1
            (create_comprehensive_knowledge_graphS p fin risk ctx).2.2.2.2).1,
          p, fin, risk, ctx)) ∧
      (create_expanded_knowledge_graphS p fin =
        ((create_expanded_knowledge_graphS
            (create_expanded_knowledge_graphS p fin).2.1
            (create_expanded_knowledge_graphS p fin).2.2).1, p, fin)) ∧
      (create_initial_knowledge_graphS p =
        ((create_initial_knowledge_graphS (create_initial_knowledge_graphS p).2).1, p)) := by
  intro p fin risk ctx
  exact ⟨rfl, rfl, rfl⟩

end ContextAI
